import Mathlib

/-!
Verification of the SuiS3 CLI core (suis3_cli): the URI resolver, the
command dispatch of `do_command`, the metadata read-result decoding of
`operations.rs`, and the blob-store adapter of `walrus.rs`, shallowly
embedded in Lean 4.  External effects (the Sui ledger gateway and the
`walrus` subprocess) are passed in as explicit oracle inputs; the code's
control flow, parsing and result shaping are embedded faithfully.
-/

namespace SuiS3

/-! ## URI resolver: the regex
`suis3:\/\/(?P<bucket>[A-Za-z0-9\-\._]+)(?P<object>[A-Za-z0-9\-\._\/]*)`
with case-insensitive scheme letters, applied unanchored by
`Regex::captures` (leftmost match). -/

/-- Character class `[A-Za-z0-9\-\._]` of the bucket capture group. -/
def isBucketChar (c : Char) : Bool :=
  (('A' ≤ c && c ≤ 'Z') || ('a' ≤ c && c ≤ 'z') || ('0' ≤ c && c ≤ '9')
    || c == '-' || c == '.' || c == '_')

/-- Character class `[A-Za-z0-9\-\._\/]` of the object capture group. -/
def isObjChar (c : Char) : Bool :=
  isBucketChar c || c == '/'

/-- The fixed scheme token `[sS][uU][iI][sS]3:\/\/`: consumes the 8
scheme characters (letters case-insensitive) and returns the remainder,
or fails. -/
def schemeMatch : List Char → Option (List Char)
  | c1 :: c2 :: c3 :: c4 :: '3' :: ':' :: '/' :: '/' :: rest =>
    if (c1 == 's' || c1 == 'S') && (c2 == 'u' || c2 == 'U')
        && (c3 == 'i' || c3 == 'I') && (c4 == 's' || c4 == 'S') then
      some rest
    else
      none
  | _ => none

/-- A regex match starting exactly at the head of `l`: the scheme token,
then the greedy nonempty bucket capture, then the greedy (possibly
empty) object capture.  Returns `(bucket, object)`. -/
def captureAt (l : List Char) : Option (String × String) :=
  match schemeMatch l with
  | none => none
  | some rest =>
    match rest.takeWhile isBucketChar with
    | [] => none
    | b :: bs =>
      some (String.mk (b :: bs),
            String.mk ((rest.dropWhile isBucketChar).takeWhile isObjChar))

/-- Leftmost-match scan of `Regex::captures`: try each start position in
order and return the first successful capture. -/
def scanCaptures : List Char → Option (String × String)
  | [] => none
  | c :: rest =>
    match captureAt (c :: rest) with
    | some r => some r
    | none => scanCaptures rest

/-- `re.captures(&uri)` for `SUIS3_REGEXP`, as used by every command of
`do_command`: `none` is the `caps.is_none()` branch that prints
"SUIS3 object format error." and returns. -/
def suis3Captures (s : String) : Option (String × String) :=
  scanCaptures s.data

/-! ## Rust `Path::file_name`
Used by the put branch (on the local file argument) and the get branch
(on the object path); `unwrap()` of a `None` file name is a panic. -/

/-- Split a character list on every occurrence of `sep` (separators are
consumed; empty segments are kept). -/
def splitOnChar (sep : Char) : List Char → List (List Char)
  | [] => [[]]
  | c :: rest =>
    if c == sep then [] :: splitOnChar sep rest
    else
      match splitOnChar sep rest with
      | [] => [[c]]
      | g :: gs => (c :: g) :: gs

/-- Rust `Path::new(p).file_name()`: the final normal component of the
path — empty and `.` components are skipped, and a path terminating in
`..` (or having no normal component) yields `none`. -/
def rustFileName (p : String) : Option String :=
  match ((splitOnChar '/' p.data).filter
      (fun c => !(c.isEmpty || c == ['.']))).getLast? with
  | none => none
  | some c => if c == ['.', '.'] then none else some (String.mk c)

/-! ## Command dispatch of `do_command`
Each command parses its URI with `suis3Captures` and then branches on
the captured object segment; the constructors record which external
operation would be invoked (or that the command stops at the format
error before any external call). -/

/-- Outcome of a command's URI handling: abort with
"SUIS3 object format error." before any external call, invoke a
bucket-level operation, or invoke an object-level operation. -/
inductive Dispatch
  | formatError
  | bucketOp (bucket : String)
  | objectOp (bucket object : String)
deriving DecidableEq, Repr

/-- `tag add/put` branch of `do_command`: empty object segment tags the
bucket, otherwise tags the object. -/
def tagAddDispatch (uri : String) : Dispatch :=
  match suis3Captures uri with
  | none => .formatError
  | some (b, o) => if o.length == 0 then .bucketOp b else .objectOp b o

/-- `tag ls/list` branch of `do_command`: empty object segment lists the
bucket's tags, otherwise the object's tags. -/
def tagListDispatch (uri : String) : Dispatch :=
  match suis3Captures uri with
  | none => .formatError
  | some (b, o) => if o.length == 0 then .bucketOp b else .objectOp b o

/-- `tag del/rm` branch of `do_command`: empty object segment deletes
the bucket's tags, otherwise the object's tags. -/
def tagDelDispatch (uri : String) : Dispatch :=
  match suis3Captures uri with
  | none => .formatError
  | some (b, o) => if o.length == 0 then .bucketOp b else .objectOp b o

/-- `del`/`rm` branch of `do_command`: an empty object segment is a
format error, otherwise `delete_object(bucket, object)` is invoked. -/
def delDispatch (uri : String) : Dispatch :=
  match suis3Captures uri with
  | none => .formatError
  | some (b, o) => if o.length == 0 then .formatError else .objectOp b o

/-- `ls` (and `ll`) branch of `do_command` with a URI argument: a
non-empty object segment is a format error, otherwise
`get_bucket_objects(bucket)` is invoked. -/
def lsDispatch (uri : String) : Dispatch :=
  match suis3Captures uri with
  | none => .formatError
  | some (b, o) => if o.length != 0 then .formatError else .bucketOp b

/-- `put` branch of `do_command`: derives the object name committed to
`put_object` — when the captured object segment is empty or exactly
`/`, it is `/` followed by the source file's base name
(`Path::file_name`, whose `unwrap` panics when absent, modelled by
`none`); otherwise the captured segment verbatim.  `none` also covers
the format-error abort. -/
def putDispatch (uri file : String) : Option (String × String) :=
  match suis3Captures uri with
  | none => none
  | some (b, o) =>
    if o.length == 0 || o == "/" then
      match rustFileName file with
      | none => none
      | some base => some (b, "/" ++ base)
    else
      some (b, o)

/-- Outcome of the `get` branch of `do_command`: format error, a
download of the resolved object to a destination file, or a panic from
unwrapping a missing base name. -/
inductive GetOutcome
  | formatError
  | download (bucket object dest : String)
  | panicked
deriving DecidableEq, Repr

/-- `get` branch of `do_command`: empty object segment is a format
error; otherwise the destination is the explicit file argument when
given, else `Path::new(object).file_name().unwrap()` (a panic when the
object path has no final normal component). -/
def getDispatch (uri : String) (file : Option String) : GetOutcome :=
  match suis3Captures uri with
  | none => .formatError
  | some (b, o) =>
    if o.length == 0 then .formatError
    else
      match file with
      | some f => .download b o f
      | none =>
        match rustFileName o with
        | some d => .download b o d
        | none => .panicked

/-! ## Blob store adapter (`walrus.rs`)
The `walrus` subprocess is an external collaborator: its exit status
and line-oriented report are oracle inputs.  Report parsing —
`part.split(":").last().unwrap().trim().parse::<u64>().unwrap()` — is
embedded exactly, with the `unwrap` of a failed numeric parse modelled
as a panic. -/

/-- The transient result of an upload (`BlobMeta` of `walrus.rs`). -/
structure BlobMeta where
  size : Nat
  tags : List String
  last_write_ts : Nat
  walrus_blob_id : String
  walrus_epoch_till : Nat
deriving DecidableEq, Repr

/-- Rust `char::is_whitespace` for the characters that occur in the
substrate's reports (as consumed by `str::trim`). -/
def isWsChar (c : Char) : Bool :=
  c == ' ' || c == '\t' || c == '\n' || c == '\r'

/-- Rust `str::trim`: strip whitespace from both ends. -/
def trimChars (l : List Char) : List Char :=
  ((l.dropWhile isWsChar).reverse.dropWhile isWsChar).reverse

/-- Rust `s.parse::<u64>()` on a trimmed report field: all-digit
numerals parse to their value, anything else fails (which the code
unwraps into a panic). -/
def parseNat (l : List Char) : Option Nat :=
  if l.isEmpty then none
  else if l.all (fun c => c.isDigit) then
    some (l.foldl (fun n c => n * 10 + (c.toNat - '0'.toNat)) 0)
  else none

/-- `part.split(":").last().unwrap().trim()`: the text after the last
colon of a report line, trimmed. -/
def lineValue (line : String) : List Char :=
  trimChars ((splitOnChar ':' line.data).getLastD [])

/-- Result of a blob-store adapter call: a panic (an `unwrap` failure
in report parsing), a `bail!` error, or a value. -/
inductive WalrusOutcome (α : Type)
  | panicked
  | failed (msg : String)
  | ok (v : α)
deriving DecidableEq, Repr

/-- The report-scanning loop of `walrus_upload_file`: every
`Blob ID:`-prefixed line overwrites the blob id, every
`End epoch:`-prefixed line overwrites the end epoch (panicking on a
non-numeric value).  State starts at `("", 0)`. -/
def scanStoreLines : List String → List Char → Nat → Option (List Char × Nat)
  | [], blobId, endEpoch => some (blobId, endEpoch)
  | l :: rest, blobId, endEpoch =>
    if "Blob ID:".data.isPrefixOf l.data then
      scanStoreLines rest (lineValue l) endEpoch
    else if "End epoch:".data.isPrefixOf l.data then
      match parseNat (lineValue l) with
      | none => none
      | some n => scanStoreLines rest blobId n
    else
      scanStoreLines rest blobId endEpoch

/-- The report-scanning loop of `walrus_blob_status`: every
`End epoch:`-prefixed line overwrites the end epoch (panicking on a
non-numeric value).  State starts at `0`. -/
def scanStatusLines : List String → Nat → Option Nat
  | [], endEpoch => some endEpoch
  | l :: rest, endEpoch =>
    if "End epoch:".data.isPrefixOf l.data then
      match parseNat (lineValue l) with
      | none => none
      | some n => scanStatusLines rest n
    else
      scanStatusLines rest endEpoch

/-- `walrus_blob_status`: on subprocess failure, `bail!` with the
subprocess diagnostics; otherwise scan the report for the end epoch and
`bail!` with "end epoch not found" when it is still `0`. -/
def walrus_blob_status (exitOk : Bool) (stderrText : String)
    (lines : List String) : WalrusOutcome Nat :=
  if !exitOk then .failed stderrText
  else
    match scanStatusLines lines 0 with
    | none => .panicked
    | some endEpoch =>
      if endEpoch == 0 then .failed "end epoch not found"
      else .ok endEpoch

/-- Oracle inputs to one `walrus_upload_file` call: the local file
length, the `walrus store` subprocess result, and the result the
`walrus blob-status` subprocess would give if invoked. -/
structure UploadEnv where
  fileLen : Nat
  storeExitOk : Bool
  storeStderr : String
  storeLines : List String
  statusExitOk : Bool
  statusStderr : String
  statusLines : List String

/-- `walrus_upload_file`: parse the store report for blob id and end
epoch; when the id is present but the epoch is `0`, fall back to one
`walrus_blob_status` call; fail unless both a non-empty id and a
nonzero epoch result.  The second component counts the blob-status
calls issued. -/
def walrus_upload_file (env : UploadEnv) : WalrusOutcome BlobMeta × Nat :=
  if !env.storeExitOk then (.failed env.storeStderr, 0)
  else
    match scanStoreLines env.storeLines [] 0 with
    | none => (.panicked, 0)
    | some (blobId, endEpoch0) =>
      let fallback : WalrusOutcome Nat × Nat :=
        if endEpoch0 == 0 && blobId.length > 0 then
          (walrus_blob_status env.statusExitOk env.statusStderr
            env.statusLines, 1)
        else (.ok endEpoch0, 0)
      match fallback with
      | (.panicked, calls) => (.panicked, calls)
      | (.failed m, calls) => (.failed m, calls)
      | (.ok endEpoch, calls) =>
        if endEpoch == 0 || blobId.length == 0 then
          (.failed "no blob id found or incorrect end epoch", calls)
        else
          (.ok ⟨env.fileLen, [], 0, String.mk blobId, endEpoch⟩, calls)

/-! ## Metadata transaction results (`operations.rs`)
Every read-style operation submits one transaction through the ledger
gateway and decodes the first emitted event's payload; the gateway's
emitted events and the serde decoding of a payload are oracle inputs
(the events as their `parsed_json` strings, the decoder as a
function). -/

/-- A bucket entry decoded from a `ls_buckets` event
(`BucketInfo` of `operations.rs`). -/
structure BucketInfo where
  name : String
  create_ts : Nat
deriving DecidableEq, Repr

/-- An object entry decoded from a `ls_bucket_objects` event
(`BucketObjectsInfo` of `operations.rs`). -/
structure BucketObjectsInfo where
  uri : String
  size : Nat
  tags : List String
  last_write_ts : Nat
  walrus_blob_id : String
  walrus_epoch_till : Nat
deriving DecidableEq, Repr

/-- The shared read-result protocol: zero emitted events is the error
"Nothing returned. Your command may be incorrect."; otherwise the first
event's payload is decoded. -/
def firstEventResult {α : Type} (decode : String → Except String α)
    (events : List String) : Except String α :=
  match events with
  | [] => .error "Nothing returned. Your command may be incorrect."
  | e :: _ => decode e

/-- `list_buckets`: decode the first event as a `BucketsList`. -/
def list_buckets (decode : String → Except String (List BucketInfo))
    (events : List String) : Except String (List BucketInfo) :=
  firstEventResult decode events

/-- `list_bucket_tags`: decode the first event as a `TagsList`. -/
def list_bucket_tags (decode : String → Except String (List String))
    (events : List String) : Except String (List String) :=
  firstEventResult decode events

/-- `list_object_tags`: decode the first event as a `TagsList`. -/
def list_object_tags (decode : String → Except String (List String))
    (events : List String) : Except String (List String) :=
  firstEventResult decode events

/-- `get_object_id`: decode the first event as a `BlobMeta` and return
its `walrus_blob_id` field. -/
def get_object_id (decode : String → Except String BlobMeta)
    (events : List String) : Except String String :=
  Except.map (fun m => m.walrus_blob_id) (firstEventResult decode events)

/-- `get_bucket_objects`: decode the first event as a
`BucketObjectsList`. -/
def get_bucket_objects
    (decode : String → Except String (List BucketObjectsInfo))
    (events : List String) : Except String (List BucketObjectsInfo) :=
  firstEventResult decode events

/-! ## `put_object` orchestration (`operations.rs`)
`put_object` first uploads the file through the blob store adapter and
only then builds and submits the `create_object` transaction, folding
the returned `BlobMeta` into the ordered input list.  The ledger
commit is an oracle; the effect trace records which external calls were
made, in order. -/

/-- One typed transaction input of the programmable transaction
builder. -/
inductive TxInput
  | rootObject
  | clockObject
  | pureString (s : String)
  | pureNat (n : Nat)
  | pureStrings (l : List String)
deriving DecidableEq, Repr

/-- The ordered input list of the `create_object` move call: root,
clock, bucket name, object name, size, blob id, end epoch, empty tag
list. -/
def create_object_inputs (bucket obj : String) (meta : BlobMeta) :
    List TxInput :=
  [.rootObject, .clockObject, .pureString bucket, .pureString obj,
   .pureNat meta.size, .pureString meta.walrus_blob_id,
   .pureNat meta.walrus_epoch_till, .pureStrings []]

/-- An external call made by `put_object`, in trace order. -/
inductive PutEffect
  | blobUpload (file : String)
  | ledgerCommit (function : String) (inputs : List TxInput)
deriving DecidableEq, Repr

/-- `put_object`: upload first (propagating an upload error with no
further calls); on success build the `create_object` inputs from the
returned meta and submit one commit, propagating its error or
returning the meta. -/
def put_object (bucket obj file : String)
    (uploadResult : Except String BlobMeta)
    (commitResult : List TxInput → Except String Unit) :
    Except String BlobMeta × List PutEffect :=
  match uploadResult with
  | .error e => (.error e, [.blobUpload file])
  | .ok meta =>
    let inputs := create_object_inputs bucket obj meta
    match commitResult inputs with
    | .error e =>
      (.error e, [.blobUpload file, .ledgerCommit "create_object" inputs])
    | .ok _ =>
      (.ok meta, [.blobUpload file, .ledgerCommit "create_object" inputs])

/-- The anchored URI grammar of the specification,
`suis3://<bucket>[<object-path>]` covering the whole string:
a case-insensitive scheme token, then a decomposition of the remainder
into a non-empty bucket segment over `[A-Za-z0-9\\-\\._]` and an
object segment over `[A-Za-z0-9\\-\\._\\/]`. -/
def GrammarMatch (s : String) : Prop :=
  ∃ (c1 c2 c3 c4 : Char) (bucket object : List Char),
    s.data = c1 :: c2 :: c3 :: c4 :: '3' :: ':' :: '/' :: '/' ::
      (bucket ++ object) ∧
    (c1 = 's' ∨ c1 = 'S') ∧ (c2 = 'u' ∨ c2 = 'U') ∧
    (c3 = 'i' ∨ c3 = 'I') ∧ (c4 = 's' ∨ c4 = 'S') ∧
    bucket ≠ [] ∧ (∀ c ∈ bucket, isBucketChar c = true) ∧
    (∀ c ∈ object, isObjChar c = true)

/-- Executable form of the anchored grammar: the scheme token at the
very start, then a first bucket character and a remainder of object
characters. -/
def grammarFullMatch (s : String) : Bool :=
  match schemeMatch s.data with
  | none => false
  | some rest =>
    match rest with
    | [] => false
    | c :: t => isBucketChar c && t.all isObjChar

end SuiS3

namespace SuiS3

/-- The head of `dropWhile p l` fails `p`. -/
theorem dropWhile_head_false (p : Char → Bool) :
    ∀ (l : List Char) (c : Char) (t : List Char),
      l.dropWhile p = c :: t → p c = false := by
  intro l
  induction l with
  | nil => intro c t h; simp [List.dropWhile] at h
  | cons a as ih =>
    intro c t h
    rw [List.dropWhile_cons] at h
    split at h
    · exact ih c t h
    · cases h
      simp_all

/-- The object capture of a match is empty or starts with `/`: the
greedy bucket capture consumes every following bucket character, and
the only object character that is not a bucket character is `/`. -/
theorem captureAt_object (l : List Char) (b o : String)
    (h : captureAt l = some (b, o)) :
    o = "" ∨ o.data.head? = some '/' := by
  unfold captureAt at h
  split at h
  · exact absurd h (by simp)
  · rename_i rest hscheme
    split at h
    · exact absurd h (by simp)
    · rename_i b0 bs hbucket
      injection h with h
      injection h with hb ho
      subst ho
      rcases hd : rest.dropWhile isBucketChar with _ | ⟨c, t⟩
      · left; rfl
      · have hc : isBucketChar c = false := dropWhile_head_false _ _ _ _ hd
        rw [List.takeWhile_cons]
        rcases hobj : isObjChar c with _ | _
        · left
          simp [hobj]
        · right
          have hslash : c = '/' := by
            have h2 := hobj
            unfold isObjChar at h2
            rw [hc] at h2
            simpa using h2
          simp [hobj, hslash]

/-- Object-shape invariant lifted over the leftmost-match scan. -/
theorem scanCaptures_object (l : List Char) (b o : String)
    (h : scanCaptures l = some (b, o)) :
    o = "" ∨ o.data.head? = some '/' := by
  induction l with
  | nil => simp [scanCaptures] at h
  | cons c rest ih =>
    unfold scanCaptures at h
    split at h
    · rename_i r heq
      injection h with h
      subst h
      exact captureAt_object _ _ _ heq
    · exact ih h

end SuiS3

namespace SuiS3

/-- Characterization of the scheme-token match. -/
theorem schemeMatch_eq_some (l rest : List Char) :
    schemeMatch l = some rest ↔
      ∃ c1 c2 c3 c4,
        l = c1 :: c2 :: c3 :: c4 :: '3' :: ':' :: '/' :: '/' :: rest ∧
        (c1 = 's' ∨ c1 = 'S') ∧ (c2 = 'u' ∨ c2 = 'U') ∧
        (c3 = 'i' ∨ c3 = 'I') ∧ (c4 = 's' ∨ c4 = 'S') := by
  constructor
  · intro h
    unfold schemeMatch at h
    split at h
    · rename_i c1 c2 c3 c4 r
      split at h
      · rename_i hcond
        injection h with h
        subst h
        simp only [Bool.and_eq_true, Bool.or_eq_true, beq_iff_eq] at hcond
        exact ⟨c1, c2, c3, c4, rfl, hcond.1.1.1, hcond.1.1.2, hcond.1.2, hcond.2⟩
      · exact absurd h (by simp)
    · exact absurd h (by simp)
  · rintro ⟨c1, c2, c3, c4, rfl, h1, h2, h3, h4⟩
    rcases h1 with rfl | rfl <;> rcases h2 with rfl | rfl <;>
      rcases h3 with rfl | rfl <;> rcases h4 with rfl | rfl <;> rfl

/-- A bucket character is an object character. -/
theorem isObjChar_of_isBucketChar (c : Char) (h : isBucketChar c = true) :
    isObjChar c = true := by
  unfold isObjChar
  rw [h]
  rfl

/-- The executable anchored-grammar check decides the specification's
grammar. -/
theorem grammarFullMatch_iff (s : String) :
    grammarFullMatch s = true ↔ GrammarMatch s := by
  unfold grammarFullMatch
  rcases hsm : schemeMatch s.data with _ | rest
  · constructor
    · intro h; exact absurd h (by simp)
    · rintro ⟨c1, c2, c3, c4, bucket, object, hdata, h1, h2, h3, h4, _, _, _⟩
      have hsm2 : schemeMatch s.data = some (bucket ++ object) :=
        (schemeMatch_eq_some _ _).mpr ⟨c1, c2, c3, c4, hdata, h1, h2, h3, h4⟩
      rw [hsm] at hsm2
      exact absurd hsm2 (by simp)
  · rcases rest with _ | ⟨c, t⟩
    · constructor
      · intro h; exact absurd h (by simp)
      · rintro ⟨c1, c2, c3, c4, bucket, object, hdata, h1, h2, h3, h4, hbne, hball, hoall⟩
        have hsm2 : schemeMatch s.data = some (bucket ++ object) :=
          (schemeMatch_eq_some _ _).mpr ⟨c1, c2, c3, c4, hdata, h1, h2, h3, h4⟩
        rw [hsm] at hsm2
        injection hsm2 with hsm2
        rcases bucket with _ | ⟨cb, bt⟩
        · exact absurd rfl hbne
        · exact absurd hsm2.symm (by simp)
    · show (isBucketChar c && t.all isObjChar) = true ↔ GrammarMatch s
      simp only [Bool.and_eq_true]
      constructor
      · rintro ⟨hc, ht⟩
        rcases (schemeMatch_eq_some s.data (c :: t)).mp hsm with
          ⟨c1, c2, c3, c4, hdata, h1, h2, h3, h4⟩
        exact ⟨c1, c2, c3, c4, [c], t, by simpa using hdata, h1, h2, h3, h4,
          by simp, by simpa using hc, by simpa [List.all_eq_true] using ht⟩
      · rintro ⟨c1, c2, c3, c4, bucket, object, hdata, h1, h2, h3, h4, hbne, hball, hoall⟩
        have hsm2 : schemeMatch s.data = some (bucket ++ object) :=
          (schemeMatch_eq_some _ _).mpr ⟨c1, c2, c3, c4, hdata, h1, h2, h3, h4⟩
        rw [hsm] at hsm2
        injection hsm2 with hsm2
        rcases bucket with _ | ⟨cb, bt⟩
        · exact absurd rfl hbne
        · simp only [List.cons_append, List.cons.injEq] at hsm2
          obtain ⟨rfl, hrest⟩ := hsm2
          refine ⟨hball c (by simp), ?_⟩
          rw [hrest, List.all_append]
          simp only [Bool.and_eq_true, List.all_eq_true]
          exact ⟨fun x hx => isObjChar_of_isBucketChar x (hball x (by simp [hx])),
            fun x hx => hoall x hx⟩

/-- The leftmost-match scan succeeds exactly when a match starts at
some suffix of the input. -/
theorem scanCaptures_isSome_iff (l : List Char) :
    (scanCaptures l).isSome = true ↔
      ∃ l', l' <:+ l ∧ (captureAt l').isSome = true := by
  induction l with
  | nil =>
    simp only [scanCaptures, Option.isSome_none]
    constructor
    · intro h; exact absurd h (by simp)
    · rintro ⟨l', hsuf, hc⟩
      rw [List.suffix_nil.mp hsuf] at hc
      exact absurd hc (by simp [captureAt, schemeMatch])
  | cons c rest ih =>
    unfold scanCaptures
    split
    · rename_i r heq
      simp only [Option.isSome_some, true_iff]
      exact ⟨c :: rest, List.suffix_rfl, by rw [heq]; rfl⟩
    · rename_i heq
      rw [ih]
      constructor
      · rintro ⟨l', hsuf, hc⟩
        exact ⟨l', hsuf.trans (List.suffix_cons c rest), hc⟩
      · rintro ⟨l', hsuf, hc⟩
        rcases List.suffix_cons_iff.mp hsuf with rfl | hsuf'
        · rw [heq] at hc
          exact absurd hc (by simp)
        · exact ⟨l', hsuf', hc⟩

/-- A full anchored-grammar match is accepted by the unanchored
parser. -/
theorem grammarFullMatch_accepted (s : String)
    (h : grammarFullMatch s = true) : (suis3Captures s).isSome = true := by
  unfold grammarFullMatch at h
  rcases hsm : schemeMatch s.data with _ | rest
  · rw [hsm] at h; exact absurd h (by simp)
  · rw [hsm] at h
    rcases rest with _ | ⟨c, t⟩
    · exact absurd h (by simp)
    · replace h : (isBucketChar c && t.all isObjChar) = true := h
      simp only [Bool.and_eq_true] at h
      rw [suis3Captures, scanCaptures_isSome_iff]
      refine ⟨s.data, List.suffix_rfl, ?_⟩
      simp [captureAt, hsm, List.takeWhile_cons, h.1]

end SuiS3

namespace SuiS3

/-- A non-empty string has a non-zero length check. -/
theorem string_ne_empty_length (s : String) (h : s ≠ "") :
    (s.length == 0) = false := by
  rw [beq_eq_false_iff_ne]
  intro h0
  apply h
  have hd : s.data = [] := List.length_eq_zero.mp h0
  cases s
  simp_all

/-- C1 counterexample: the tag-add command on the bucket-only URI
`suis3://mybucket` (whose captured object segment is empty) does not
fail with a format error — it silently dispatches to the bucket-level
tag operation. -/
theorem c1_tag_bucket_scope_counterexample :
    suis3Captures "suis3://mybucket" = some ("mybucket", "") ∧
    tagAddDispatch "suis3://mybucket" = Dispatch.bucketOp "mybucket" ∧
    tagAddDispatch "suis3://mybucket" ≠ Dispatch.formatError := by
  refine ⟨rfl, rfl, ?_⟩
  decide

/-- C1 (amended): on a syntactically valid bucket-only URI (empty
captured object segment), the delete-object command fails with the
format error before any external call, while the tag commands (add,
list, delete) dispatch to the corresponding bucket-level operation
rather than failing. -/
theorem c1_object_ops_on_bucket_only_uri (s b : String)
    (h : suis3Captures s = some (b, "")) :
    delDispatch s = Dispatch.formatError ∧
    tagAddDispatch s = Dispatch.bucketOp b ∧
    tagListDispatch s = Dispatch.bucketOp b ∧
    tagDelDispatch s = Dispatch.bucketOp b := by
  unfold delDispatch tagAddDispatch tagListDispatch tagDelDispatch
  rw [h]
  simp

/-- Witness for C1 at the concrete bucket-only URI `suis3://mybucket`. -/
theorem c1_object_ops_on_bucket_only_uri_w :
    delDispatch "suis3://mybucket" = Dispatch.formatError ∧
    tagAddDispatch "suis3://mybucket" = Dispatch.bucketOp "mybucket" ∧
    tagListDispatch "suis3://mybucket" = Dispatch.bucketOp "mybucket" ∧
    tagDelDispatch "suis3://mybucket" = Dispatch.bucketOp "mybucket" :=
  c1_object_ops_on_bucket_only_uri "suis3://mybucket" "mybucket" rfl

/-- C2 counterexample: `xsuis3://b` does not match the URI grammar
(anchored at the start of the string), yet parsing accepts it, because
`Regex::captures` searches unanchored and finds the match starting at
index 1. -/
theorem c2_unanchored_counterexample :
    ¬ GrammarMatch "xsuis3://b" ∧
    grammarFullMatch "xsuis3://b" = false ∧
    suis3Captures "xsuis3://b" = some ("b", "") := by
  refine ⟨?_, rfl, rfl⟩
  intro hg
  exact absurd ((grammarFullMatch_iff "xsuis3://b").mpr hg) (by decide)

/-- C2 (amended): parsing accepts a string exactly when a match of the
pattern starts at some suffix of it (the regex is unanchored); every
string matching the full anchored grammar is accepted, and on parse
failure every command stops at the format error with no external
call. -/
theorem c2_parse_acceptance (s t : String) :
    ((suis3Captures s).isSome = true ↔
      ∃ l, l <:+ s.data ∧ (captureAt l).isSome = true) ∧
    (GrammarMatch t → (suis3Captures t).isSome = true) ∧
    (suis3Captures s = none →
      tagAddDispatch s = Dispatch.formatError ∧
      tagListDispatch s = Dispatch.formatError ∧
      tagDelDispatch s = Dispatch.formatError ∧
      delDispatch s = Dispatch.formatError ∧
      lsDispatch s = Dispatch.formatError ∧
      (∀ f, getDispatch s f = GetOutcome.formatError) ∧
      (∀ f, putDispatch s f = none)) := by
  refine ⟨scanCaptures_isSome_iff s.data, ?_, ?_⟩
  · intro hg
    exact grammarFullMatch_accepted t ((grammarFullMatch_iff t).mpr hg)
  · intro h
    unfold tagAddDispatch tagListDispatch tagDelDispatch delDispatch
      lsDispatch getDispatch putDispatch
    rw [h]
    simp

/-- Witness for C2: `hello` is rejected with the format error, and the
grammar-conforming `suis3://b` is accepted. -/
theorem c2_parse_acceptance_w :
    delDispatch "hello" = Dispatch.formatError ∧
    (suis3Captures "suis3://b").isSome = true := by
  refine ⟨((c2_parse_acceptance "hello" "suis3://b").2.2 rfl).2.2.2.1, ?_⟩
  exact (c2_parse_acceptance "hello" "suis3://b").2.1
    ((grammarFullMatch_iff "suis3://b").mp (by decide))

/-- C3: every accepted URI captures an object segment that is either
empty or starts with the character `/`. -/
theorem c3_object_capture_shape (s b o : String)
    (h : suis3Captures s = some (b, o)) :
    o = "" ∨ o.data.head? = some '/' :=
  scanCaptures_object s.data b o h

/-- Witness for C3 at the concrete object URI `suis3://b/x.txt`. -/
theorem c3_object_capture_shape_w :
    ("/x.txt" : String) = "" ∨ ("/x.txt" : String).data.head? = some '/' :=
  c3_object_capture_shape "suis3://b/x.txt" "b" "/x.txt" rfl

/-- C4 counterexample: for the URI `suis3://b/` the captured object
segment is exactly `/`, and the tag caller dispatches it to the
object-level operation (object name `/`) while the list caller rejects
it as a format error — neither treats it as bucket-only. -/
theorem c4_slash_object_counterexample :
    suis3Captures "suis3://b/" = some ("b", "/") ∧
    tagAddDispatch "suis3://b/" = Dispatch.objectOp "b" "/" ∧
    lsDispatch "suis3://b/" = Dispatch.formatError :=
  ⟨rfl, rfl, rfl⟩

/-- C4 (amended): the tag and list callers branch solely on emptiness
of the object segment — an empty segment dispatches to bucket level,
while a segment of exactly `/` goes to the object-level tag operations
and is a format error for the list caller; only the put command treats
`/` like an absent object segment. -/
theorem c4_empty_vs_slash_dispatch (s1 s2 b1 b2 file base : String)
    (h1 : suis3Captures s1 = some (b1, ""))
    (h2 : suis3Captures s2 = some (b2, "/"))
    (hbase : rustFileName file = some base) :
    (tagAddDispatch s1 = Dispatch.bucketOp b1 ∧
     tagListDispatch s1 = Dispatch.bucketOp b1 ∧
     tagDelDispatch s1 = Dispatch.bucketOp b1 ∧
     lsDispatch s1 = Dispatch.bucketOp b1) ∧
    (tagAddDispatch s2 = Dispatch.objectOp b2 "/" ∧
     tagListDispatch s2 = Dispatch.objectOp b2 "/" ∧
     tagDelDispatch s2 = Dispatch.objectOp b2 "/" ∧
     lsDispatch s2 = Dispatch.formatError) ∧
    (putDispatch s1 file = some (b1, "/" ++ base) ∧
     putDispatch s2 file = some (b2, "/" ++ base)) := by
  unfold tagAddDispatch tagListDispatch tagDelDispatch lsDispatch putDispatch
  rw [h1, h2, hbase]
  simp
  decide

/-- Witness for C4 at the concrete URIs `suis3://a` and `suis3://b/`. -/
theorem c4_empty_vs_slash_dispatch_w :
    tagAddDispatch "suis3://a" = Dispatch.bucketOp "a" ∧
    tagAddDispatch "suis3://b/" = Dispatch.objectOp "b" "/" ∧
    putDispatch "suis3://b/" "./x/y.bin" = some ("b", "/y.bin") := by
  have h := c4_empty_vs_slash_dispatch "suis3://a" "suis3://b/" "a" "b"
    "./x/y.bin" "y.bin" rfl rfl rfl
  exact ⟨h.1.1, h.2.1.1, h.2.2.2⟩

end SuiS3

namespace SuiS3

/-- C5: the put command commits the object name `/` + the source
file's base name when the URI supplies no object segment or exactly
`/`, and the captured segment verbatim otherwise. -/
theorem c5_put_object_name (uriE uriS uriO file bE bS bO objO base : String)
    (hE : suis3Captures uriE = some (bE, ""))
    (hS : suis3Captures uriS = some (bS, "/"))
    (hO : suis3Captures uriO = some (bO, objO))
    (hne : objO ≠ "") (hns : objO ≠ "/")
    (hbase : rustFileName file = some base) :
    putDispatch uriE file = some (bE, "/" ++ base) ∧
    putDispatch uriS file = some (bS, "/" ++ base) ∧
    putDispatch uriO file = some (bO, objO) := by
  unfold putDispatch
  rw [hE, hS, hO, hbase]
  have hl := string_ne_empty_length objO hne
  have hs : (objO == "/") = false := beq_eq_false_iff_ne.mpr hns
  simp [hl, hs]

/-- Witness for C5: `put ./data/report.csv suis3://mybucket` commits
object name `/report.csv`; an explicit segment is kept verbatim. -/
theorem c5_put_object_name_w :
    putDispatch "suis3://mybucket" "./data/report.csv"
      = some ("mybucket", "/report.csv") ∧
    putDispatch "suis3://mybucket/" "./data/report.csv"
      = some ("mybucket", "/report.csv") ∧
    putDispatch "suis3://mybucket/obj.bin" "./data/report.csv"
      = some ("mybucket", "/obj.bin") :=
  c5_put_object_name "suis3://mybucket" "suis3://mybucket/"
    "suis3://mybucket/obj.bin" "./data/report.csv" "mybucket" "mybucket"
    "mybucket" "/obj.bin" "report.csv" rfl rfl rfl (by decide) (by decide) rfl

/-- C6: the get command with no destination argument downloads to the
object path's base name, and with a destination argument downloads to
it unchanged. -/
theorem c6_get_destination (uri b o d f : String)
    (h : suis3Captures uri = some (b, o)) (hne : o ≠ "")
    (hd : rustFileName o = some d) :
    getDispatch uri none = GetOutcome.download b o d ∧
    getDispatch uri (some f) = GetOutcome.download b o f := by
  unfold getDispatch
  rw [h]
  have hl := string_ne_empty_length o hne
  simp [hl, hd]

/-- Witness for C6: `get suis3://mybucket/report.csv` with no
destination writes to `report.csv`. -/
theorem c6_get_destination_w :
    getDispatch "suis3://mybucket/report.csv" none
      = GetOutcome.download "mybucket" "/report.csv" "report.csv" ∧
    getDispatch "suis3://mybucket/report.csv" (some "out.bin")
      = GetOutcome.download "mybucket" "/report.csv" "out.bin" :=
  c6_get_destination "suis3://mybucket/report.csv" "mybucket" "/report.csv"
    "report.csv" "out.bin" rfl (by decide) rfl

/-- C7: every read-style metadata operation errors with
"Nothing returned. Your command may be incorrect." on zero emitted
events — never an empty success — and decodes the first event's
payload otherwise. -/
theorem c7_first_event_protocol
    (d1 : String → Except String (List BucketInfo))
    (d2 d3 : String → Except String (List String))
    (d4 : String → Except String BlobMeta)
    (d5 : String → Except String (List BucketObjectsInfo))
    (e : String) (rest : List String) :
    (list_buckets d1 []
        = .error "Nothing returned. Your command may be incorrect." ∧
     list_bucket_tags d2 []
        = .error "Nothing returned. Your command may be incorrect." ∧
     list_object_tags d3 []
        = .error "Nothing returned. Your command may be incorrect." ∧
     get_object_id d4 []
        = .error "Nothing returned. Your command may be incorrect." ∧
     get_bucket_objects d5 []
        = .error "Nothing returned. Your command may be incorrect.") ∧
    (list_buckets d1 (e :: rest) = d1 e ∧
     list_bucket_tags d2 (e :: rest) = d2 e ∧
     list_object_tags d3 (e :: rest) = d3 e ∧
     get_object_id d4 (e :: rest)
        = Except.map (fun m => m.walrus_blob_id) (d4 e) ∧
     get_bucket_objects d5 (e :: rest) = d5 e) :=
  ⟨⟨rfl, rfl, rfl, rfl, rfl⟩, ⟨rfl, rfl, rfl, rfl, rfl⟩⟩

/-- C9: `put_object` uploads before any metadata transaction: an
upload error is returned as the single error with no commit attempted,
and a commit error after a successful upload is returned as the single
error with the upload already performed and no further action. -/
theorem c9_put_upload_then_commit (bucket obj file e1 e2 : String)
    (meta : BlobMeta) (commitResult : List TxInput → Except String Unit)
    (hc : commitResult (create_object_inputs bucket obj meta)
        = Except.error e2) :
    put_object bucket obj file (Except.error e1) commitResult
      = (Except.error e1, [PutEffect.blobUpload file]) ∧
    put_object bucket obj file (Except.ok meta) commitResult
      = (Except.error e2,
         [PutEffect.blobUpload file,
          PutEffect.ledgerCommit "create_object"
            (create_object_inputs bucket obj meta)]) := by
  refine ⟨rfl, ?_⟩
  simp [put_object, hc]

/-- Witness for C9 with concrete upload and commit failures. -/
theorem c9_put_upload_then_commit_w :
    put_object "b" "/o" "f" (Except.error "upload failed")
        (fun _ => Except.error "commit failed")
      = (Except.error "upload failed", [PutEffect.blobUpload "f"]) ∧
    put_object "b" "/o" "f" (Except.ok ⟨3, [], 0, "id", 7⟩)
        (fun _ => Except.error "commit failed")
      = (Except.error "commit failed",
         [PutEffect.blobUpload "f",
          PutEffect.ledgerCommit "create_object"
            (create_object_inputs "b" "/o" ⟨3, [], 0, "id", 7⟩)]) :=
  c9_put_upload_then_commit "b" "/o" "f" "upload failed" "commit failed"
    ⟨3, [], 0, "id", 7⟩ (fun _ => Except.error "commit failed") rfl

/-- C10: the default-destination derivation of get unwraps a missing
base name for an object segment of exactly `/`: `Path::file_name` is
`None` there, and the command panics instead of reporting an error. -/
theorem c10_get_slash_panics (uri b : String)
    (h : suis3Captures uri = some (b, "/")) :
    rustFileName "/" = none ∧ getDispatch uri none = GetOutcome.panicked := by
  refine ⟨rfl, ?_⟩
  unfold getDispatch
  rw [h]
  have hlen : (("/" : String).length == 0) = false := by decide
  have hr : rustFileName "/" = none := rfl
  simp [hlen, hr]

/-- Witness for C10 at the concrete URI `suis3://mybucket/`. -/
theorem c10_get_slash_panics_w :
    getDispatch "suis3://mybucket/" none = GetOutcome.panicked :=
  (c10_get_slash_panics "suis3://mybucket/" "mybucket" rfl).2

end SuiS3

namespace SuiS3

/-- A successful blob-status query never reports epoch zero. -/
theorem walrus_blob_status_ok_pos (exitOk : Bool) (stderrText : String)
    (lines : List String) (ep : Nat)
    (h : walrus_blob_status exitOk stderrText lines = WalrusOutcome.ok ep) :
    ep ≠ 0 := by
  unfold walrus_blob_status at h
  rcases exitOk with _ | _
  · exact absurd h (by simp)
  · simp only [Bool.not_true, Bool.false_eq_true, if_false] at h
    rcases hsc : scanStatusLines lines 0 with _ | n
    · rw [hsc] at h
      exact absurd h (by simp)
    · rw [hsc] at h
      replace h : (if (n == 0) = true then
          WalrusOutcome.failed "end epoch not found"
          else WalrusOutcome.ok n) = WalrusOutcome.ok ep := h
      rcases hn : (n == 0) with _ | _
      · rw [hn] at h
        simp only [Bool.false_eq_true, if_false] at h
        injection h with h
        subst h
        simpa using hn
      · rw [hn] at h
        simp at h

/-- C8: when the store report yields a blob id but end epoch `0`,
exactly one blob-status fallback call is issued; the upload succeeds
exactly with the status call's (necessarily nonzero) epoch and the
scanned blob id, propagates a status failure, and every success
carries a non-empty blob id and a nonzero expiry epoch. -/
theorem c8_upload_expiry_fallback (env : UploadEnv) (blobId : List Char)
    (hexit : env.storeExitOk = true)
    (hscan : scanStoreLines env.storeLines [] 0 = some (blobId, 0))
    (hid : blobId.length > 0) :
    (walrus_upload_file env).2 = 1 ∧
    (∀ m, (walrus_upload_file env).1 = WalrusOutcome.ok m →
      m.walrus_blob_id.length > 0 ∧ m.walrus_epoch_till ≠ 0) ∧
    (∀ msg,
      walrus_blob_status env.statusExitOk env.statusStderr env.statusLines
          = WalrusOutcome.failed msg →
      (walrus_upload_file env).1 = WalrusOutcome.failed msg) ∧
    (∀ ep,
      walrus_blob_status env.statusExitOk env.statusStderr env.statusLines
          = WalrusOutcome.ok ep →
      (walrus_upload_file env).1
        = WalrusOutcome.ok ⟨env.fileLen, [], 0, String.mk blobId, ep⟩) := by
  rcases hst : walrus_blob_status env.statusExitOk env.statusStderr
      env.statusLines with _ | msg0 | ep0
  · have hval : walrus_upload_file env = (WalrusOutcome.panicked, 1) := by
      simp [walrus_upload_file, hexit, hscan, hid, hst]
    refine ⟨by rw [hval], ?_, ?_, ?_⟩
    · intro m hm
      rw [hval] at hm
      exact absurd hm (by simp)
    · intro msg hmsg
      exact absurd hmsg (by simp)
    · intro ep hep
      exact absurd hep (by simp)
  · have hval : walrus_upload_file env = (WalrusOutcome.failed msg0, 1) := by
      simp [walrus_upload_file, hexit, hscan, hid, hst]
    refine ⟨by rw [hval], ?_, ?_, ?_⟩
    · intro m hm
      rw [hval] at hm
      exact absurd hm (by simp)
    · intro msg hmsg
      injection hmsg with hmsg
      rw [hval, hmsg]
    · intro ep hep
      exact absurd hep (by simp)
  · have hep0 : ep0 ≠ 0 := walrus_blob_status_ok_pos _ _ _ _ hst
    have hlen : (blobId.length == 0) = false := by
      simpa using Nat.ne_of_gt hid
    have hval : walrus_upload_file env
        = (WalrusOutcome.ok ⟨env.fileLen, [], 0, String.mk blobId, ep0⟩, 1) := by
      simp [walrus_upload_file, hexit, hscan, hid, hst, hep0, hlen]
    refine ⟨by rw [hval], ?_, ?_, ?_⟩
    · intro m hm
      rw [hval] at hm
      injection hm with hm
      subst hm
      exact ⟨by simpa using hid, hep0⟩
    · intro msg hmsg
      exact absurd hmsg (by simp)
    · intro ep hep
      injection hep with hep
      subst hep
      rw [hval]

/-- Witness for C8: a store report with a blob id and no end epoch,
recovered by one blob-status call reporting epoch 42. -/
theorem c8_upload_expiry_fallback_w :
    (walrus_upload_file
      ⟨10, true, "", ["Blob ID: abc"], true, "", ["End epoch: 42"]⟩).2 = 1 ∧
    (walrus_upload_file
      ⟨10, true, "", ["Blob ID: abc"], true, "", ["End epoch: 42"]⟩).1
      = WalrusOutcome.ok ⟨10, [], 0, "abc", 42⟩ := by
  have h := c8_upload_expiry_fallback
    ⟨10, true, "", ["Blob ID: abc"], true, "", ["End epoch: 42"]⟩
    "abc".data rfl rfl (by decide)
  exact ⟨h.1, h.2.2.2 42 rfl⟩

end SuiS3
